import Mathlib

/-
  Shallow embedding of a small HTTP/TCP multiplexer repository.

  The repository has two source files:
  - src/server/http_server.cpp : an epoll-based server. The main loop waits on
    epoll_wait; readiness on the listening descriptor leads to accept, setting
    the new descriptor non-blocking, and registering it with epoll; readiness
    on a client descriptor leads to one read(2) and, depending on the count
    returned, either a fixed HTTP response written back followed by close and
    epoll deregistration, or (count <= 0) close and epoll deregistration.
  - src/server.cpp : a poll-based server with a fixed table of
    MAX_CLIENTS + 1 pollfd slots. Readiness on the listening slot leads to
    accept and storing the new descriptor in the first free slot; readiness on
    a client slot leads to one read(2): a positive count is only logged, a
    non-positive count closes the descriptor and frees the slot.

  The embedding turns each branch of the two event handlers into a pure
  function from the observed system-call results to the list of externally
  visible effects (writes, closes, epoll control calls, log lines), plus the
  updated table state where the source mutates one.  System-call outcomes
  (socket, bind, listen, fcntl, epoll_create1, epoll_ctl, accept, poll, read)
  are inputs of the functions, since the embedding cannot perform I/O.
-/

namespace Srv

/-- One externally visible effect of the server code: a write of a payload to
a descriptor, a close of a descriptor, an epoll_ctl ADD or DEL for a
descriptor, or a line printed to standard output or standard error. -/
inductive Effect where
  | write (fd : Int) (payload : String)
  | close (fd : Int)
  | epollDel (fd : Int)
  | epollAdd (fd : Int)
  | log (msg : String)
  deriving DecidableEq

/-- Outcome of one read(2) call as the code can observe it: the returned
count, the bytes placed in the buffer, and whether errno was
EAGAIN / EWOULDBLOCK (meaningful only for a negative count).  Neither source
file ever inspects errno, so no definition below reads the wouldBlock field;
keeping the field makes that fact checkable. -/
structure ReadRes where
  count : Int
  bytes : String
  wouldBlock : Bool
  deriving DecidableEq

/-- Whether an effect is a write of response bytes to a descriptor. -/
def isWrite : Effect → Bool
  | Effect.write _ _ => true
  | _ => false

/-- The literal HTTP response of src/server/http_server.cpp, lines 192-198. -/
def response : String :=
  "HTTP/1.1 200 OK\r\nContent-Type: text/plain\r\nContent-Length: 13\r\nConnection: close\r\n\r\nHello, world!"

/-- The client-descriptor branch of the epoll event loop,
src/server/http_server.cpp lines 176-202: one read; if the count is
non-positive, close then epoll_ctl DEL; otherwise write the fixed response,
then close, then epoll_ctl DEL.  The effects are listed in source order. -/
def handleClient (client_fd : Int) (r : ReadRes) : List Effect :=
  if r.count ≤ 0 then
    [Effect.close client_fd, Effect.epollDel client_fd]
  else
    [Effect.write client_fd response, Effect.close client_fd, Effect.epollDel client_fd]

/-- make_socket_non_blocking, src/server/http_server.cpp lines 32-38: returns
-1 when fcntl F_GETFL fails, otherwise the result of fcntl F_SETFL. -/
def make_socket_non_blocking (getflRes setflRes : Int) : Int :=
  if getflRes = -1 then -1 else setflRes

/-- The listening-descriptor branch of the epoll event loop,
src/server/http_server.cpp lines 144-174: accept; on failure (-1) log and
continue; on success call make_socket_non_blocking and epoll_ctl ADD, the
return values of both calls being discarded by the source. -/
def epollHandleAccept (acceptRes getflRes setflRes epollCtlRes : Int) : List Effect :=
  if acceptRes = -1 then
    [Effect.log "accept"]
  else
    let _ := make_socket_non_blocking getflRes setflRes
    let _ := epollCtlRes
    [Effect.epollAdd acceptRes]

/-- The startup sequence of src/server/http_server.cpp lines 40-123, as a
function of the system-call results: some code means main returns that exit
code before the loop; none means startup succeeds and the loop is entered.
The second component is the diagnostics printed.  The return value of
make_socket_non_blocking on the listening socket (line 80) is discarded by
the source. -/
def httpServerSetup (socketRes bindRes listenRes getflRes setflRes epollCreateRes epollCtlRes : Int) :
    Option Nat × List Effect :=
  if socketRes < 0 then (some 1, [Effect.log "socket"])
  else if bindRes < 0 then (some 1, [Effect.log "bind"])
  else if listenRes < 0 then (some 1, [Effect.log "listen"])
  else
    let _ := make_socket_non_blocking getflRes setflRes
    if epollCreateRes = -1 then (some 1, [Effect.log "epoll_create1"])
    else if epollCtlRes = -1 then (some 1, [Effect.log "epoll_ctl"])
    else (none, [Effect.log "HTTP server running on port 8080"])

/-- MAX_CLIENTS of src/server.cpp line 19. -/
def MAX_CLIENTS : Nat := 10

/-- The client slots fds[1..MAX_CLIENTS] of src/server.cpp after the
initialisation loop of lines 82-84: every slot holds -1 (empty). -/
def initialSlots : List Int := List.replicate MAX_CLIENTS (-1)

/-- The slot-insertion loop of src/server.cpp lines 122-128: store the new
descriptor in the first slot holding -1; when no slot holds -1 the loop falls
through and the table is unchanged (the descriptor is stored nowhere). -/
def addClient : List Int → Int → List Int
  | [], _ => []
  | s :: rest, client_fd =>
    if s = -1 then client_fd :: rest else s :: addClient rest client_fd

/-- The listening-slot branch of the poll loop, src/server.cpp lines 115-132:
accept; if the returned descriptor is non-negative, log and run the
slot-insertion loop; otherwise log the failure.  No branch ever emits a
close. -/
def handleAccept (slots : List Int) (acceptRes : Int) : List Int × List Effect :=
  if acceptRes ≥ 0 then
    (addClient slots acceptRes, [Effect.log "New connection accepted"])
  else
    (slots, [Effect.log "Accept failed"])

/-- The client-slot branch of the poll loop, src/server.cpp lines 135-148,
for one slot: guarded by fds[i].fd != -1 and POLLIN in revents; then one
read; a positive count is only logged; otherwise the descriptor is closed and
the slot set to -1.  Returns the new slot value and the effects in source
order. -/
def pollServiceSlot (fd : Int) (pollin : Bool) (r : ReadRes) : Int × List Effect :=
  if fd ≠ -1 ∧ pollin = true then
    if r.count > 0 then
      (fd, [Effect.log ("Received data from client: " ++ r.bytes)])
    else
      (-1, [Effect.log "Client disconnected", Effect.close fd])
  else
    (fd, [])

/-- Marking a slot empty, the assignment fds[i].fd = -1 of src/server.cpp
line 145, as an operation on the slot table. -/
def releaseSlot (slots : List Int) (i : Nat) : List Int := slots.set i (-1)

/-- The exit behaviour of the poll loop of src/server.cpp lines 93-149 as a
function of the successive poll(2) results: a negative result breaks the
loop, after which line 151-152 close the listening socket and return 0; the
function returns none when the scripted results are exhausted with the loop
still running. -/
def runPollLoop : List Int → Option Nat
  | [] => none
  | r :: rest => if r < 0 then some 0 else runPollLoop rest

/-- The exit code of main in src/server.cpp as a function of the setup
system-call results (lines 27-53) and the scripted poll results: socket
failure (== -1), bind failure (< 0) and listen failure (< 0) each return 1;
otherwise the loop runs. -/
def pollServerMain (socketRes bindRes listenRes : Int) (polls : List Int) : Option Nat :=
  if socketRes = -1 then some 1
  else if bindRes < 0 then some 1
  else if listenRes < 0 then some 1
  else runPollLoop polls

/-- The read of src/server.cpp lines 137-138: a stack buffer of 1024 bytes is
zero-initialised, and read(2) is given sizeof(buffer) - 1 = 1023 as the byte
limit, so at most the first min(length, 1023) bytes of the buffer are
overwritten with received data. -/
def readIntoBuffer (data : List Nat) : List Nat :=
  let buffer := List.replicate 1024 0
  let n := min data.length 1023
  data.take n ++ buffer.drop n

/-- The deregistration-before-close ordering demanded by the specification:
in an effect trace, every epoll_ctl DEL for a descriptor occurs strictly
before every close of that descriptor. -/
def deregBeforeClose (fd : Int) (tr : List Effect) : Prop :=
  ∀ i j : Nat, tr.get? i = some (Effect.epollDel fd) →
    tr.get? j = some (Effect.close fd) → i < j

/-- A full slot table: ten slots all holding live descriptors (none is -1). -/
def fullSlots : List Int := [4, 5, 6, 7, 8, 9, 10, 11, 12, 13]

/-- C1: in the epoll server, every read returning a positive count makes the
loop write back, on the same descriptor, exactly the byte string
HTTP/1.1 200 OK CRLF Content-Type: text/plain CRLF Content-Length: 13 CRLF
Connection: close CRLF CRLF Hello, world! — whose Content-Length value 13
equals the length of the body Hello, world! — and then close that
descriptor (the close is what the peer observes as EOF): the write is the
first effect and the close of the same descriptor follows it. -/
theorem C1_positive_read_exact_response (fd : Int) (r : ReadRes) (h : 0 < r.count) :
    handleClient fd r =
      [Effect.write fd response, Effect.close fd, Effect.epollDel fd] ∧
    response =
      "HTTP/1.1 200 OK\r\nContent-Type: text/plain\r\nContent-Length: 13\r\nConnection: close\r\n\r\nHello, world!" ∧
    String.length "Hello, world!" = 13 ∧
    (handleClient fd r).get? 0 = some (Effect.write fd response) ∧
    (handleClient fd r).get? 1 = some (Effect.close fd) := by
  have hc : ¬ r.count ≤ 0 := not_le.mpr h
  refine ⟨?_, rfl, rfl, ?_, ?_⟩ <;> simp [handleClient, hc]

/-- Witness for C1 at descriptor 7 with a read of 4 bytes. -/
theorem C1_positive_read_exact_response_witness :
    (0 : Int) < 4 ∧
    handleClient 7 ⟨4, "ping", false⟩ =
      [Effect.write 7 response, Effect.close 7, Effect.epollDel 7] :=
  ⟨by decide, (C1_positive_read_exact_response 7 ⟨4, "ping", false⟩ (by decide)).1⟩

/-- C8: a read returning zero bytes (peer EOF) closes the connection and
releases its slot without any write effect, in both servers: the epoll
server closes and deregisters, the poll server logs the disconnect, closes,
and sets the slot to -1; neither trace contains a write. -/
theorem C8_eof_close_and_release_without_response (fd : Int) (r : ReadRes)
    (hfd : fd ≠ -1) (h : r.count = 0) :
    handleClient fd r = [Effect.close fd, Effect.epollDel fd] ∧
    (handleClient fd r).filter isWrite = [] ∧
    pollServiceSlot fd true r = (-1, [Effect.log "Client disconnected", Effect.close fd]) ∧
    ((pollServiceSlot fd true r).2).filter isWrite = [] := by
  have hle : r.count ≤ 0 := le_of_eq h
  have hng : ¬ r.count > 0 := not_lt.mpr hle
  refine ⟨?_, ?_, ?_, ?_⟩ <;> simp [handleClient, pollServiceSlot, hle, hng, hfd, isWrite]

/-- Witness for C8 at descriptor 9 with a zero-byte read. -/
theorem C8_eof_close_and_release_without_response_witness :
    (9 : Int) ≠ -1 ∧
    handleClient 9 ⟨0, "", false⟩ = [Effect.close 9, Effect.epollDel 9] ∧
    pollServiceSlot 9 true ⟨0, "", false⟩ =
      (-1, [Effect.log "Client disconnected", Effect.close 9]) := by
  have h := C8_eof_close_and_release_without_response 9 ⟨0, "", false⟩ (by decide) rfl
  exact ⟨by decide, h.1, h.2.2.1⟩

/-- C9: slot release is idempotent — marking the same slot -1 a second time
leaves the table in the same state as after the first release — and an
already-released slot (fd = -1) is skipped by the service guard of
src/server.cpp line 136, so no second close of a descriptor number is ever
emitted for it. -/
theorem C9_release_idempotent_no_double_close
    (slots : List Int) (i : Nat) (pollin : Bool) (r : ReadRes) :
    releaseSlot (releaseSlot slots i) i = releaseSlot slots i ∧
    pollServiceSlot (-1) pollin r = (-1, []) := by
  constructor
  · simp [releaseSlot, List.set_set]
  · simp [pollServiceSlot]

/-- C10: the 1024-byte read buffer of src/server.cpp is zero-initialised and
read(2) is limited to 1023 bytes, so for every possible received byte
sequence the buffer keeps its length 1024, at most 1023 bytes are stored,
and the final byte (index 1023) is still 0 — the buffer is always
NUL-terminated when printed as a C string. -/
theorem C10_buffer_always_nul_terminated (data : List Nat) :
    (readIntoBuffer data).length = 1024 ∧
    min data.length 1023 ≤ 1023 ∧
    (readIntoBuffer data).getD 1023 1 = 0 := by
  have hn : min data.length 1023 ≤ 1023 := Nat.min_le_right _ _
  have hnd : min data.length 1023 ≤ data.length := Nat.min_le_left _ _
  have hlen : (data.take (min data.length 1023)).length = min data.length 1023 :=
    List.length_take_of_le hnd
  have hunfold : readIntoBuffer data =
      data.take (min data.length 1023) ++
        (List.replicate 1024 0).drop (min data.length 1023) := rfl
  refine ⟨?_, hn, ?_⟩
  · rw [hunfold, List.length_append, hlen, List.length_drop, List.length_replicate]
    omega
  · rw [hunfold, List.getD_eq_getElem?_getD,
      List.getElem?_append_right (by rw [hlen]; omega), hlen, List.drop_replicate,
      List.getElem?_replicate_of_lt (by omega)]
    rfl

/-- C2 counterexample: in the poll server, a positive read (4 bytes on
descriptor 5, slot occupied, POLLIN set) produces only a log line — the slot
still holds descriptor 5 (not released), no write effect occurs, and the
descriptor is not closed.  This refutes the claimed functional equivalence
with the epoll server, which on the same outcome writes the response and
closes. -/
theorem C2_poll_positive_read_counterexample :
    pollServiceSlot 5 true ⟨4, "ping", false⟩ =
      (5, [Effect.log "Received data from client: ping"]) ∧
    ((pollServiceSlot 5 true ⟨4, "ping", false⟩).2).filter isWrite = [] ∧
    ¬ Effect.close 5 ∈ (pollServiceSlot 5 true ⟨4, "ping", false⟩).2 ∧
    (pollServiceSlot 5 true ⟨4, "ping", false⟩).1 ≠ -1 := by decide

/-- C2 (amended): the two strategies are not functionally equivalent — in
the bounded polling server every positive read only logs the received bytes;
nothing is written back, the descriptor is not closed, and the slot is not
released (the slot keeps the same descriptor). -/
theorem C2_amended_poll_positive_read_logs_only (fd : Int) (r : ReadRes)
    (hfd : fd ≠ -1) (h : 0 < r.count) :
    pollServiceSlot fd true r =
      (fd, [Effect.log ("Received data from client: " ++ r.bytes)]) ∧
    ((pollServiceSlot fd true r).2).filter isWrite = [] ∧
    ¬ Effect.close fd ∈ (pollServiceSlot fd true r).2 := by
  refine ⟨?_, ?_, ?_⟩ <;> simp [pollServiceSlot, hfd, h, isWrite]

/-- Witness for the amended C2 at descriptor 5 with a 4-byte read. -/
theorem C2_amended_poll_positive_read_logs_only_witness :
    (5 : Int) ≠ -1 ∧ (0 : Int) < 4 ∧
    pollServiceSlot 5 true ⟨4, "ping", false⟩ =
      (5, [Effect.log ("Received data from client: " ++ "ping")]) :=
  ⟨by decide, by decide,
    (C2_amended_poll_positive_read_logs_only 5 ⟨4, "ping", false⟩ (by decide) (by decide)).1⟩

/-- C3: evaluation of the poll-server accept path at the failing input — the
slot table is full (ten live descriptors) and accept returns descriptor 42.
The table is unchanged, descriptor 42 is stored nowhere, and no close of 42
is emitted: the connection is neither registered nor refused, it is silently
leaked, contradicting the specified close-on-full backpressure policy. -/
theorem C3_full_table_leaks_new_descriptor :
    handleAccept fullSlots 42 = (fullSlots, [Effect.log "New connection accepted"]) ∧
    ¬ Effect.close 42 ∈ (handleAccept fullSlots 42).2 ∧
    ¬ (42 : Int) ∈ (handleAccept fullSlots 42).1 := by decide

/-- C4 counterexample: on the EOF path of the epoll server at descriptor 5
the effect trace is close first, epoll_ctl DEL second — the deregistration
does not precede the close, refuting the claimed deregister-then-close
order. -/
theorem C4_close_precedes_deregistration_counterexample :
    handleClient 5 ⟨0, "", false⟩ = [Effect.close 5, Effect.epollDel 5] ∧
    ¬ deregBeforeClose 5 (handleClient 5 ⟨0, "", false⟩) := by
  constructor
  · rfl
  · intro h
    have h10 := h 1 0 rfl rfl
    omega

/-- C4 (amended): on every path that destroys a connection in the epoll
server (response written, read error, or EOF), the descriptor is closed
strictly before the epoll deregistration: the trace always ends with close
followed immediately by epoll_ctl DEL, the reverse of the claimed order. -/
theorem C4_amended_close_then_deregister (fd : Int) (r : ReadRes) :
    ∃ pre : List Effect,
      handleClient fd r = pre ++ [Effect.close fd, Effect.epollDel fd] := by
  by_cases h : r.count ≤ 0
  · exact ⟨[], by simp [handleClient, h]⟩
  · exact ⟨[Effect.write fd response], by simp [handleClient, h]⟩

/-- C5 counterexample: a read on descriptor 7 returning -1 with the
would-block indication set (errno EAGAIN) nevertheless closes the connection
and deregisters it — the code never inspects errno, refuting the claim that
would-block events are ignored. -/
theorem C5_would_block_closes_counterexample :
    handleClient 7 ⟨-1, "", true⟩ = [Effect.close 7, Effect.epollDel 7] ∧
    Effect.close 7 ∈ handleClient 7 ⟨-1, "", true⟩ := by decide

/-- C5 (amended): both servers close the connection and release its slot on
every non-positive read count, would-block included — the would-block
indication is never consulted (the result is the same for any value of the
wouldBlock field). -/
theorem C5_amended_any_nonpositive_read_closes (fd : Int) (r : ReadRes)
    (hfd : fd ≠ -1) (h : r.count ≤ 0) :
    handleClient fd r = [Effect.close fd, Effect.epollDel fd] ∧
    pollServiceSlot fd true r =
      (-1, [Effect.log "Client disconnected", Effect.close fd]) := by
  have hng : ¬ r.count > 0 := not_lt.mpr h
  constructor
  · simp [handleClient, h]
  · simp [pollServiceSlot, hfd, hng]

/-- Witness for the amended C5 at descriptor 7 with a would-block read. -/
theorem C5_amended_any_nonpositive_read_closes_witness :
    (7 : Int) ≠ -1 ∧ (-1 : Int) ≤ 0 ∧
    handleClient 7 ⟨-1, "", true⟩ = [Effect.close 7, Effect.epollDel 7] :=
  ⟨by decide, by decide,
    (C5_amended_any_nonpositive_read_closes 7 ⟨-1, "", true⟩ (by decide) (by decide)).1⟩

/-- C6 counterexample: with fcntl F_GETFL failing on the listening socket
(so make_socket_non_blocking returns -1) and every other setup call
succeeding, startup still enters the event loop (exit code none) and prints
only the normal banner — the failure is neither fatal nor diagnosed,
refuting the claim that it aborts startup. -/
theorem C6_nonblocking_failure_not_fatal_counterexample :
    httpServerSetup 3 0 0 (-1) (-1) 4 0 =
      (none, [Effect.log "HTTP server running on port 8080"]) ∧
    make_socket_non_blocking (-1) (-1) = -1 := by decide

/-- C6 (amended): the return value of make_socket_non_blocking is ignored
for the listening socket and for client sockets alike — setup proceeds
identically whatever the fcntl results are, and the accept path registers
the client descriptor regardless, with no log of the failure in either
place. -/
theorem C6_amended_nonblocking_result_ignored (g s g2 s2 : Int) :
    httpServerSetup 3 0 0 g s 4 0 = httpServerSetup 3 0 0 g2 s2 4 0 ∧
    (∀ a e : Int, a ≠ -1 → epollHandleAccept a g s e = [Effect.epollAdd a]) := by
  constructor
  · rfl
  · intro a e ha
    simp [epollHandleAccept, ha]

/-- Witness for the amended C6: failing fcntl results against succeeding
ones, and a registration at descriptor 42 despite failing fcntl. -/
theorem C6_amended_nonblocking_result_ignored_witness :
    httpServerSetup 3 0 0 (-1) (-1) 4 0 = httpServerSetup 3 0 0 0 0 4 0 ∧
    epollHandleAccept 42 (-1) (-1) (-7) = [Effect.epollAdd 42] :=
  ⟨(C6_amended_nonblocking_result_ignored (-1) (-1) 0 0).1,
    (C6_amended_nonblocking_result_ignored (-1) (-1) 0 0).2 42 (-7) (by decide)⟩

/-- C7 counterexample: with successful setup, a poll(2) error on the first
loop iteration makes main break out of the loop and reach the final
return 0 — the process exits with code 0, not 1, on a fatal wait error, so
exit code 0 is reachable outside any clean-shutdown path. -/
theorem C7_poll_error_exits_zero_counterexample :
    pollServerMain 3 0 0 [-1] = some 0 ∧
    pollServerMain 3 0 0 [-1] ≠ some 1 := by decide

/-- C7 (amended): every setup failure (socket, bind, listen) exits with
code 1, but a wait (poll) error terminates the loop and the process then
exits with code 0 — so 0 is not exclusive to clean shutdown and the wait
error is the one fatal failure that does not exit non-zero. -/
theorem C7_amended_exit_codes (socketRes bindRes listenRes : Int)
    (polls rest : List Int) (r : Int) :
    (socketRes = -1 → pollServerMain socketRes bindRes listenRes polls = some 1) ∧
    (socketRes ≠ -1 → bindRes < 0 →
      pollServerMain socketRes bindRes listenRes polls = some 1) ∧
    (socketRes ≠ -1 → ¬ bindRes < 0 → listenRes < 0 →
      pollServerMain socketRes bindRes listenRes polls = some 1) ∧
    (socketRes ≠ -1 → ¬ bindRes < 0 → ¬ listenRes < 0 → r < 0 →
      pollServerMain socketRes bindRes listenRes (r :: rest) = some 0) := by
  refine ⟨?_, ?_, ?_, ?_⟩
  · intro hs
    simp [pollServerMain, hs]
  · intro hs hb
    simp [pollServerMain, hs, hb]
  · intro hs hb hl
    simp [pollServerMain, hs, hb, hl]
  · intro hs hb hl hr
    simp [pollServerMain, runPollLoop, hs, hb, hl, hr]

/-- Witness for the amended C7: a socket failure exits 1 and a poll error
after successful setup exits 0. -/
theorem C7_amended_exit_codes_witness :
    pollServerMain (-1) 0 0 [] = some 1 ∧
    pollServerMain 3 0 0 [-1] = some 0 :=
  ⟨(C7_amended_exit_codes (-1) 0 0 [] [] 0).1 rfl,
    (C7_amended_exit_codes 3 0 0 [-1] [] (-1)).2.2.2
      (by decide) (by decide) (by decide) (by decide)⟩

end Srv
